import Mathlib

/-!
Shallow embedding of `src/src/app/profiles/page.tsx` of ebulku/xtream-player:
the profiles page of an IPTV account manager.  Each React event handler of the
page (`fetchProfiles`, `handleCreateProfile`, `handleSetActiveProfile`,
`deleteProfile`) is embedded as a pure function from the component state and
the outcomes of its external calls (the HTTP responses and the
`verifyIPTVCredentials` result, which are inputs of the model) to the new
component state together with the ordered list of observable effects the
handler performs (HTTP requests, toasts, console logs, navigation, local
storage and client-session writes).  The JSX returned by the component is
embedded as `renderPage` / `renderCard`, pure functions from the state to a
view structure recording the rendered buttons, their labels, disabled flags
and wiring.
-/

namespace XtreamPlayer

/-- Modelled from the spec: the `Profile` record imported from `@/db/schema`,
whose source is not in the corpus.  Per the spec data model it carries
id, owner, display name, the IPTV endpoint credentials, the active flag and a
creation time. -/
structure Profile where
  id : Int
  userId : Int
  name : String
  iptvUrl : String
  iptvUsername : String
  iptvPassword : String
  isActive : Bool
  createdAt : Int
  deriving DecidableEq, Repr

/-- The transient form state `ProfileFormData` staged by the creation dialog:
the subset of `Profile` fields typed by the user. -/
structure ProfileFormData where
  name : String
  iptvUrl : String
  iptvUsername : String
  iptvPassword : String
  deriving DecidableEq, Repr

/-- The blank form the component starts with and resets to after a successful
creation. -/
def emptyFormData : ProfileFormData :=
  { name := "", iptvUrl := "", iptvUsername := "", iptvPassword := "" }

/-- The client session object resolved by `getClientSession`. -/
structure Session where
  id : Int
  email : String
  deriving DecidableEq, Repr

/-- The React state of the `Profiles` component: the `useState` hooks
`profiles`, `loading`, `activeProfileId`, `isDialogOpen`, `user`, `formData`,
`error` and `isLoading` of the source, in order. -/
structure PageState where
  profiles : List Profile
  loading : Bool
  activeProfileId : Option Int
  isDialogOpen : Bool
  user : Option Session
  formData : ProfileFormData
  error : Option String
  isLoading : Bool
  deriving DecidableEq, Repr

/-- An observable effect performed by a handler, in program order: an HTTP
request, the external credential check, a toast, a console log, a router
navigation, a browser-local-storage write, a client-session write, a call of
`setIsLoading` (the in-flight flag), or a nested call of `fetchProfiles`. -/
inductive Effect where
  | httpGet (url : String)
  | httpPost (url : String)
  | httpDelete (url : String)
  | verifyCredentials (url : String) (username : String) (password : String)
  | toastSuccess (msg : String)
  | toastError (msg : String)
  | consoleError (tag : String)
  | routerPush (route : String)
  | routerRefresh
  | storageSet (key : String) (value : Profile)
  | sessionSet (token : String)
  | setIsLoadingEff (b : Bool)
  | fetchProfilesCall
  deriving DecidableEq, Repr

/-- JavaScript string truthiness of `data.message || fallback` and
`data.error || fallback`: a missing or empty string falls back. -/
def jsOr (o : Option String) (fallback : String) : String :=
  match o with
  | some m => if m = "" then fallback else m
  | none => fallback

/-- The dynamic JavaScript value parsed from a `GET /api/profiles` response
body: either a bare array of profiles or the envelope object
with the fields `profiles` and `activeProfileId`. -/
inductive JVal where
  | jarr (ps : List Profile)
  | jobj (profiles : List Profile) (activeProfileId : Option Int)
  deriving DecidableEq, Repr

/-- The JavaScript property access `data.activeProfileId`: `undefined`
(modelled `none`) on an array, the field on the envelope object. -/
def JVal.activeProfileIdField : JVal → Option Int
  | .jarr _ => none
  | .jobj _ apid => apid

/-- A completed response of `GET /api/profiles`: its status, and the parsed
JSON body (`none` when `response.json()` throws). -/
structure FetchResp where
  status : Nat
  body : Option JVal
  deriving DecidableEq, Repr

/-- What one execution of `fetchProfiles` does to the component state:
redirect to `/login`, overwrite `profiles` (with the raw value handed to
`setProfiles`) and `activeProfileId`, or only log the caught error.  In every
case the source additionally runs `setLoading(false)` in the `finally`
block. -/
inductive FetchResult where
  | redirectToLogin
  | writeState (profilesVal : JVal) (activeId : Option Int)
  | logError
  deriving DecidableEq, Repr

/-- The `fetchProfiles` handler (page.tsx lines 59-80).  The argument is the
outcome of `fetch`: `none` when the request itself throws, otherwise the
response.  On status 401 it redirects and returns; otherwise it parses the
body (a parse failure throws into the catch block, which only logs) and
unconditionally runs `setProfiles(data)` — the whole parsed value — and
`setActiveProfileId(data.activeProfileId)`.  There is no `response.ok`
check. -/
def fetchProfiles : Option FetchResp → FetchResult
  | none => .logError
  | some resp =>
      if resp.status = 401 then .redirectToLogin
      else
        match resp.body with
        | none => .logError
        | some data => .writeState data data.activeProfileIdField

/-- The outcome of the `verifyIPTVCredentials` call of the creation handler:
resolved `true`, resolved `false`, or rejected (thrown into the catch
block). -/
inductive VerifyResult where
  | valid
  | invalid
  | throws
  deriving DecidableEq, Repr

/-- The outcome of the `POST /api/profiles` request of the creation handler:
`response.ok`, a non-ok response whose JSON body may carry a `message` field,
or a throw (of `fetch` or of `response.json()`). -/
inductive PostResult where
  | success
  | failure (message : Option String)
  | throws
  deriving DecidableEq, Repr

/-- The `handleCreateProfile` handler (page.tsx lines 90-138).  It first runs
`setError(null)`, then inside the try block `setIsLoading(true)`, then awaits
`verifyIPTVCredentials` on the staged form data.  A `false` result shows an
error toast and returns before any request; a `true` result issues the POST:
on `response.ok` it toasts success, blanks the form, closes the dialog,
re-fetches the list and refreshes the router, otherwise it toasts
`data.message || fallback`.  Any throw is caught, logged and toasted
generically.  The `finally` block runs `setIsLoading(false)` on every path. -/
def handleCreateProfile (s : PageState) (v : VerifyResult) (post : PostResult) :
    PageState × List Effect :=
  let s0 : PageState := { s with error := none }
  let s1 : PageState := { s0 with isLoading := true }
  let verifyEff : Effect :=
    .verifyCredentials s.formData.iptvUrl s.formData.iptvUsername s.formData.iptvPassword
  match v with
  | .throws =>
      ({ s1 with isLoading := false },
       [.setIsLoadingEff true, verifyEff,
        .consoleError "Error creating profile:", .toastError "Failed to create profile",
        .setIsLoadingEff false])
  | .invalid =>
      ({ s1 with isLoading := false },
       [.setIsLoadingEff true, verifyEff,
        .toastError "Invalid IPTV credentials. Please check your URL, username, and password.",
        .setIsLoadingEff false])
  | .valid =>
      match post with
      | .success =>
          ({ s1 with formData := emptyFormData, isDialogOpen := false, isLoading := false },
           [.setIsLoadingEff true, verifyEff, .httpPost "/api/profiles",
            .toastSuccess "Profile created successfully",
            .fetchProfilesCall, .routerRefresh, .setIsLoadingEff false])
      | .failure msg =>
          ({ s1 with isLoading := false },
           [.setIsLoadingEff true, verifyEff, .httpPost "/api/profiles",
            .toastError (jsOr msg "Failed to create profile"),
            .setIsLoadingEff false])
      | .throws =>
          ({ s1 with isLoading := false },
           [.setIsLoadingEff true, verifyEff, .httpPost "/api/profiles",
            .consoleError "Error creating profile:", .toastError "Failed to create profile",
            .setIsLoadingEff false])

/-- The outcome of the `POST /api/profiles/setActive` request: an
`response.ok` response whose parsed body may carry a `token` field, a non-ok
response, or a throw caught by the catch block. -/
inductive SetActiveResult where
  | success (token : Option String)
  | failure
  | throws
  deriving DecidableEq, Repr

/-- The `handleSetActiveProfile` handler (page.tsx lines 140-171).  It runs
`setIsLoading(true)`, issues the POST, and only when `response.ok` does
anything further: it installs `data.token` when truthy via
`setClientSession`, runs `setActiveProfileId(profileId)`, looks the profile
up in the current in-memory `profiles` list and caches the found object (if
any) in local storage under `activeProfile`, toasts success and navigates
home.  A non-ok response falls through silently; a throw is logged and
toasted generically.  The `finally` block runs `setIsLoading(false)`. -/
def handleSetActiveProfile (s : PageState) (profileId : Int) (r : SetActiveResult) :
    PageState × List Effect :=
  let s1 : PageState := { s with isLoading := true }
  match r with
  | .success token =>
      let sessionEffs : List Effect :=
        match token with
        | some t => if t = "" then [] else [.sessionSet t]
        | none => []
      let storageEffs : List Effect :=
        match s.profiles.find? (fun p => p.id == profileId) with
        | some activeProfile => [.storageSet "activeProfile" activeProfile]
        | none => []
      ({ s1 with activeProfileId := some profileId, isLoading := false },
       [.setIsLoadingEff true, .httpPost "/api/profiles/setActive"]
         ++ sessionEffs ++ storageEffs
         ++ [.toastSuccess "Active profile updated successfully",
             .routerPush "/", .routerRefresh, .setIsLoadingEff false])
  | .failure =>
      ({ s1 with isLoading := false },
       [.setIsLoadingEff true, .httpPost "/api/profiles/setActive",
        .setIsLoadingEff false])
  | .throws =>
      ({ s1 with isLoading := false },
       [.setIsLoadingEff true, .httpPost "/api/profiles/setActive",
        .consoleError "Error setting active profile:",
        .toastError "Failed to set active profile",
        .setIsLoadingEff false])

/-- The outcome of the `DELETE /api/profiles/:id` request: `response.ok`, a
non-ok response whose JSON body may carry an `error` field, or a throw (of
`fetch` or of `response.json()`) caught by the catch block. -/
inductive DeleteResult where
  | success
  | failure (errMsg : Option String)
  | throws
  deriving DecidableEq, Repr

/-- The URL template of the delete request. -/
def deleteUrl (profileId : Int) : String :=
  "/api/profiles/" ++ toString profileId

/-- The `deleteProfile` handler (page.tsx lines 173-190).  On a non-ok
response it runs `setError(data.error || fallback)` and returns without
re-fetching; on success it re-fetches the list; a throw is logged and sets
the generic error.  It never touches the `isLoading` flag. -/
def deleteProfile (s : PageState) (profileId : Int) (r : DeleteResult) :
    PageState × List Effect :=
  match r with
  | .success =>
      (s, [.httpDelete (deleteUrl profileId), .fetchProfilesCall])
  | .failure errMsg =>
      ({ s with error := some (jsOr errMsg "Failed to delete profile") },
       [.httpDelete (deleteUrl profileId)])
  | .throws =>
      ({ s with error := some "Failed to delete profile" },
       [.httpDelete (deleteUrl profileId),
        .consoleError "Error deleting profile:"])

/-- A rendered button: its label, whether the JSX sets the `disabled`
attribute, its variant, and the profile id its `onClick` targets (`none` for
the dialog buttons, which target no profile). -/
structure ButtonView where
  label : String
  disabled : Bool
  variant : String
  targetId : Option Int
  deriving DecidableEq, Repr

/-- One rendered profile card (page.tsx lines 266-297): the key, the name
heading, the green border and check-mark shown for the active profile, the
main Active / Set Active button, and the delete button which the JSX renders
only under `!profile.isActive`. -/
structure CardView where
  profileId : Int
  name : String
  borderGreen : Bool
  showCheck : Bool
  mainButton : ButtonView
  deleteButton : Option ButtonView
  deriving DecidableEq, Repr

/-- The card JSX for one profile.  Neither button carries a `disabled`
attribute in the source, so both render enabled; the main button is wired to
`handleSetActiveProfile(profile.id)` and the delete button, rendered only for
non-active profiles, to `deleteProfile(profile.id)`. -/
def renderCard (profile : Profile) : CardView :=
  { profileId := profile.id
    name := profile.name
    borderGreen := profile.isActive
    showCheck := profile.isActive
    mainButton :=
      { label := if profile.isActive then "Active" else "Set Active"
        disabled := false
        variant := if profile.isActive then "secondary" else "outline"
        targetId := some profile.id }
    deleteButton :=
      if profile.isActive then none
      else
        some { label := "Trash2", disabled := false, variant := "destructive"
               targetId := some profile.id } }

/-- The non-spinner page view: the dialog trigger, the form submit button
(neither carries a `disabled` attribute in the source), and the grid of
profile cards. -/
structure PageView where
  addProfileTrigger : ButtonView
  submitButton : ButtonView
  cards : List CardView
  deriving DecidableEq, Repr

/-- The component return value (page.tsx lines 192-301): the spinner
(modelled `none`) while `loading` is true, otherwise the page view.  The JSX
reads only `isDialogOpen`, `formData`, `user` and `profiles`; in particular
it never reads `error` or `isLoading`, and no button is ever disabled. -/
def renderPage (s : PageState) : Option PageView :=
  if s.loading then none
  else
    some
      { addProfileTrigger :=
          { label := "Add Profile", disabled := false, variant := "default", targetId := none }
        submitButton :=
          { label := "Add Profile", disabled := false, variant := "default", targetId := none }
        cards := s.profiles.map renderCard }

/-- A Bool test for the in-flight-flag effect, used to state which handlers
touch the flag. -/
def Effect.isSetIsLoading : Effect → Bool
  | .setIsLoadingEff _ => true
  | _ => false

/-- A Bool test for a user-visible notification (any toast). -/
def Effect.isUserNotification : Effect → Bool
  | .toastSuccess _ => true
  | .toastError _ => true
  | _ => false

/-- A Bool test for a diagnostic console log. -/
def Effect.isConsoleLog : Effect → Bool
  | .consoleError _ => true
  | _ => false

/-- Whether a rendered card carries any disabled control. -/
def cardHasDisabledControl (c : CardView) : Bool :=
  c.mainButton.disabled ||
    (match c.deleteButton with
     | some d => d.disabled
     | none => false)

/-- Whether the rendered page carries any disabled control (false on the
spinner, which renders no controls). -/
def pageHasDisabledControl (s : PageState) : Bool :=
  match renderPage s with
  | none => false
  | some v =>
      v.addProfileTrigger.disabled || v.submitButton.disabled ||
        v.cards.any cardHasDisabledControl

/-- The active profile of the spec scenario: id 1, name A, isActive true. -/
def profileA : Profile :=
  { id := 1, userId := 1, name := "A", iptvUrl := "http://a.example", iptvUsername := "ua",
    iptvPassword := "pa", isActive := true, createdAt := 0 }

/-- The inactive profile of the spec scenario: id 2, name B, isActive false. -/
def profileB : Profile :=
  { id := 2, userId := 1, name := "B", iptvUrl := "http://b.example", iptvUsername := "ub",
    iptvPassword := "pb", isActive := false, createdAt := 0 }

/-- A ready page state holding the two scenario profiles, with the creation
dialog open and no request in flight. -/
def baseState : PageState :=
  { profiles := [profileA, profileB], loading := false, activeProfileId := some 1,
    isDialogOpen := true, user := some { id := 1, email := "u@example" },
    formData := { name := "N", iptvUrl := "http://c.example", iptvUsername := "uc",
                  iptvPassword := "pc" },
    error := none, isLoading := false }

/-- C1, counterexample: with a stale error message pending (as left by a
failed delete), submitting the creation form with credentials that fail
verification does change the component state — `setError(null)` runs before
the verification — so "no state write occurs" is false as stated. -/
theorem create_invalid_writes_state :
    (handleCreateProfile { baseState with error := some "Failed to delete profile" }
        VerifyResult.invalid PostResult.success).1 ≠
      { baseState with error := some "Failed to delete profile" } := by
  decide

/-- C1 (amended): whenever `verifyIPTVCredentials` resolves false, no
`POST /api/profiles` request is issued, the invalid-credentials error toast is
shown, and the dialog-open flag, profile collection, active-profile id and
form data are all unchanged; the only state writes are the unconditional
pre-verification `setError(null)` and the in-flight flag (set true, reset
false by `finally`).  In every execution the verification call is the second
step of the trace, before any request, so verification always precedes
persistence. -/
theorem create_invalid_aborts_before_post (s : PageState) (post : PostResult) :
    handleCreateProfile s .invalid post =
      ({ s with error := none, isLoading := false },
       [.setIsLoadingEff true,
        .verifyCredentials s.formData.iptvUrl s.formData.iptvUsername s.formData.iptvPassword,
        .toastError "Invalid IPTV credentials. Please check your URL, username, and password.",
        .setIsLoadingEff false]) ∧
    Effect.httpPost "/api/profiles" ∉ (handleCreateProfile s .invalid post).2 ∧
    (∀ (v : VerifyResult) (p : PostResult),
      (handleCreateProfile s v p).2.take 2 =
        [.setIsLoadingEff true,
         .verifyCredentials s.formData.iptvUrl s.formData.iptvUsername
           s.formData.iptvPassword]) := by
  refine ⟨rfl, ?_, ?_⟩
  · simp [handleCreateProfile]
  · intro v p
    cases v <;> cases p <;> rfl

/-- C2, counterexample: on a 200 response whose body is the envelope object
with fields `profiles` and `activeProfileId`, `fetchProfiles` does not store
the contained profile list — `setProfiles(data)` receives the whole parsed
body, not `data.profiles`. -/
theorem fetch_envelope_not_unwrapped :
    fetchProfiles (some { status := 200, body := some (.jobj [profileB] (some 2)) }) ≠
      FetchResult.writeState (.jarr [profileB]) (some 2) := by
  decide

/-- C2 (amended): on every 200 response, `fetchProfiles` replaces the profile
state wholesale with the entire parsed body — the envelope object itself when
the body is `{ profiles, activeProfileId }` (not the inner list), the array
when the body is a bare array — and replaces the active-profile id with the
body's `activeProfileId` property (`undefined` for a bare array). -/
theorem fetch_success_writes_whole_body (ps : List Profile) (apid : Option Int) :
    fetchProfiles (some { status := 200, body := some (.jobj ps apid) }) =
      .writeState (.jobj ps apid) apid ∧
    fetchProfiles (some { status := 200, body := some (.jarr ps) }) =
      .writeState (.jarr ps) none :=
  ⟨rfl, rfl⟩

/-- C3, counterexample: on a 500 response whose body parses as JSON,
`fetchProfiles` does not leave the prior state untouched — it overwrites the
profile state and active-profile id with the parsed body, because the source
has no `response.ok` check after the 401 test. -/
theorem fetch_500_overwrites_state :
    fetchProfiles (some { status := 500, body := some (.jarr [profileA]) }) ≠
      FetchResult.logError ∧
    fetchProfiles (some { status := 500, body := some (.jarr [profileA]) }) =
      .writeState (.jarr [profileA]) none := by
  constructor
  · decide
  · rfl

/-- C3 (amended): on every response whose status is not 401, the prior state
is preserved (with the error only logged) exactly when the body fails to
parse or the request itself throws; when the body parses, the profile state
and active-profile id are overwritten just as on a 200, whatever the
status. -/
theorem fetch_non401_failure (st : Nat) (h : st ≠ 401) (body : Option JVal) :
    fetchProfiles (some { status := st, body := body }) =
      (match body with
       | none => .logError
       | some data => .writeState data data.activeProfileIdField) ∧
    fetchProfiles none = FetchResult.logError := by
  refine ⟨?_, rfl⟩
  simp only [fetchProfiles, if_neg h]

/-- C3, witness: instantiating the amended theorem at a 500 response with an
unparseable body. -/
theorem fetch_non401_failure_witness :
    (500 ≠ 401) ∧
    (fetchProfiles (some { status := 500, body := (none : Option JVal) }) =
        FetchResult.logError ∧
      fetchProfiles none = FetchResult.logError) :=
  ⟨by decide, fetch_non401_failure 500 (by decide) none⟩

/-- Neither button of a rendered card is disabled: the source JSX sets no
`disabled` attribute on the Active / Set Active button nor on the delete
button. -/
theorem renderCard_no_disabled (p : Profile) :
    cardHasDisabledControl (renderCard p) = false := by
  cases h : p.isActive <;> simp [cardHasDisabledControl, renderCard, h]

/-- No control of the rendered page is ever disabled, whatever the state. -/
theorem renderPage_no_disabled (s : PageState) :
    pageHasDisabledControl s = false := by
  by_cases hl : s.loading
  · simp [pageHasDisabledControl, renderPage, hl]
  · simp [pageHasDisabledControl, renderPage, hl, List.any_map, List.any_eq_false,
      Function.comp, renderCard_no_disabled]

/-- C4, counterexample: with the in-flight flag set (a request outstanding),
the page still renders every control enabled — the JSX never reads
`isLoading` and no button carries a `disabled` attribute — and
`deleteProfile` performs no flag write at all, so no mutation is gated
against duplicate submission through the rendered UI. -/
theorem no_ui_gating_at_busy_state :
    ({ baseState with isLoading := true } : PageState).isLoading = true ∧
    pageHasDisabledControl { baseState with isLoading := true } = false ∧
    ((deleteProfile { baseState with isLoading := true } 2 DeleteResult.success).2.any
        Effect.isSetIsLoading) = false := by
  decide

/-- C4 (amended): creation and activation bracket their work with the shared
in-flight flag — each trace starts with `setIsLoading(true)` and contains the
`finally` reset `setIsLoading(false)` — but deletion performs no flag write
and leaves `isLoading` unchanged, and the rendered UI never consults the
flag: the view is identical whatever `isLoading` holds and no rendered
control is ever disabled, so duplicate submission is not prevented through
the rendered UI. -/
theorem inflight_flag_not_wired_to_ui (s : PageState) (v : VerifyResult)
    (post : PostResult) (pid : Int) (r : SetActiveResult) (dr : DeleteResult) (b : Bool) :
    (handleCreateProfile s v post).2.head? = some (.setIsLoadingEff true) ∧
    Effect.setIsLoadingEff false ∈ (handleCreateProfile s v post).2 ∧
    (handleSetActiveProfile s pid r).2.head? = some (.setIsLoadingEff true) ∧
    Effect.setIsLoadingEff false ∈ (handleSetActiveProfile s pid r).2 ∧
    ((deleteProfile s pid dr).2.any Effect.isSetIsLoading) = false ∧
    (deleteProfile s pid dr).1.isLoading = s.isLoading ∧
    renderPage { s with isLoading := b } = renderPage s ∧
    pageHasDisabledControl s = false := by
  refine ⟨?_, ?_, ?_, ?_, ?_, ?_, ?_, renderPage_no_disabled s⟩
  · cases v <;> cases post <;> rfl
  · cases v <;> cases post <;> simp [handleCreateProfile]
  · cases r <;> rfl
  · cases r <;> simp [handleSetActiveProfile]
  · cases dr <;> rfl
  · cases dr <;> rfl
  · rfl

/-- C5, counterexample: when the activation request returns a non-ok
response, the handler surfaces nothing — no toast and no console log appear
in the trace (the source only handles thrown errors in its catch block; a
non-ok response falls through silently). -/
theorem setactive_failure_is_silent :
    ((handleSetActiveProfile baseState 2 SetActiveResult.failure).2.any
        (fun e => e.isUserNotification || e.isConsoleLog)) = false ∧
    (handleSetActiveProfile baseState 2 SetActiveResult.failure).1 = baseState := by
  decide

/-- C5 (amended): only a thrown activation request is logged to diagnostics
and surfaced as the generic toast; a non-ok response is ignored silently —
no log, no toast.  In both cases the only state write is the in-flight flag
being set and reset to false. -/
theorem setactive_failure_paths (s : PageState) (pid : Int) :
    handleSetActiveProfile s pid .failure =
      ({ s with isLoading := false },
       [.setIsLoadingEff true, .httpPost "/api/profiles/setActive", .setIsLoadingEff false]) ∧
    handleSetActiveProfile s pid .throws =
      ({ s with isLoading := false },
       [.setIsLoadingEff true, .httpPost "/api/profiles/setActive",
        .consoleError "Error setting active profile:",
        .toastError "Failed to set active profile",
        .setIsLoadingEff false]) :=
  ⟨rfl, rfl⟩

/-- C6, counterexample: after a non-ok delete response, the server message is
stored in the `error` state but the rendered page is identical to the page
before the deletion — the JSX never reads `error`, so the message is never
displayed to the user. -/
theorem delete_error_never_displayed :
    (deleteProfile baseState 2 (DeleteResult.failure (some "cannot delete"))).1.error =
      some "cannot delete" ∧
    renderPage (deleteProfile baseState 2 (DeleteResult.failure (some "cannot delete"))).1 =
      renderPage baseState := by
  decide

/-- C6 (amended): on a non-ok delete response the server-provided error
message (or the generic fallback) is captured into the component's `error`
state and the list is not re-fetched; on success the list is re-fetched —
but the captured message is never displayed: the rendered page does not
depend on the `error` state. -/
theorem delete_outcomes (s : PageState) (pid : Int) (msg : Option String)
    (e : Option String) :
    deleteProfile s pid (.failure msg) =
      ({ s with error := some (jsOr msg "Failed to delete profile") },
       [.httpDelete (deleteUrl pid)]) ∧
    deleteProfile s pid .success =
      (s, [.httpDelete (deleteUrl pid), .fetchProfilesCall]) ∧
    Effect.fetchProfilesCall ∉ (deleteProfile s pid (.failure msg)).2 ∧
    renderPage { s with error := e } = renderPage s := by
  refine ⟨rfl, rfl, ?_, rfl⟩
  simp [deleteProfile]

/-- The number of rendered cards whose main button is labeled "Active"
equals the number of profiles whose `isActive` flag is true. -/
theorem countP_active_cards (ps : List Profile) :
    (ps.map renderCard).countP (fun c => c.mainButton.label == "Active") =
      ps.countP (·.isActive) := by
  induction ps with
  | nil => rfl
  | cons p t ih =>
      rw [List.map_cons, List.countP_cons, List.countP_cons, ih]
      cases h : p.isActive <;> simp [renderCard, h]

/-- C7, counterexample: the card of the active scenario profile renders its
"Active" button enabled — the source sets no `disabled` attribute on it —
and the button stays wired to `handleSetActiveProfile`, so the claimed
disabled state is false. -/
theorem active_button_not_disabled :
    (renderCard profileA).mainButton.label = "Active" ∧
    (renderCard profileA).mainButton.disabled = false ∧
    (renderCard profileA).mainButton.targetId = some 1 := by
  decide

/-- C7 (amended): when at most one profile of the list has `isActive` true,
at most one rendered card shows the "Active" label — but that button is
enabled (secondary variant, no `disabled` attribute), not disabled — and
every other card shows an enabled "Set Active" button. -/
theorem at_most_one_active_card (ps : List Profile)
    (h : ps.countP (·.isActive) ≤ 1) :
    ((ps.map renderCard).countP (fun c => c.mainButton.label == "Active")) ≤ 1 ∧
    ∀ p ∈ ps, (renderCard p).mainButton.disabled = false ∧
      (renderCard p).mainButton.label = (if p.isActive then "Active" else "Set Active") := by
  refine ⟨?_, fun p _ => ⟨rfl, rfl⟩⟩
  rw [countP_active_cards]
  exact h

/-- C7, witness: the amended theorem at the two-profile spec scenario list. -/
theorem at_most_one_active_card_witness :
    ([profileA, profileB].countP (·.isActive) ≤ 1) ∧
    ((([profileA, profileB]).map renderCard).countP
        (fun c => c.mainButton.label == "Active") ≤ 1 ∧
      ∀ p ∈ [profileA, profileB], (renderCard p).mainButton.disabled = false ∧
        (renderCard p).mainButton.label =
          (if p.isActive then "Active" else "Set Active")) :=
  ⟨by decide, at_most_one_active_card [profileA, profileB] (by decide)⟩

/-- C8: a rendered card carries the delete control exactly when its profile
is not active — the JSX renders the delete button only under
`!profile.isActive` — so the active profile's card has no delete control and
every inactive profile's card has one, enabled and wired to that profile's
id. -/
theorem delete_control_iff_inactive (p : Profile) :
    (renderCard p).deleteButton.isSome = !p.isActive ∧
    (renderCard p).deleteButton.all
      (fun d => d.targetId == some p.id && !d.disabled) = true := by
  cases h : p.isActive <;> simp [renderCard, h, Option.all]

/-- C9: when the activation request succeeds with a truthy token in the body
and the requested id is found in the in-memory list, the handler installs the
token as the client session, updates the local active-profile id to the
requested id, caches the found profile object in local storage under
`activeProfile`, shows the success toast and navigates to the home route
`/`. -/
theorem setactive_success_effects (s : PageState) (pid : Int) (t : String) (q : Profile)
    (ht : t ≠ "") (hq : s.profiles.find? (fun p => p.id == pid) = some q) :
    handleSetActiveProfile s pid (.success (some t)) =
      ({ s with activeProfileId := some pid, isLoading := false },
       [.setIsLoadingEff true, .httpPost "/api/profiles/setActive",
        .sessionSet t, .storageSet "activeProfile" q,
        .toastSuccess "Active profile updated successfully",
        .routerPush "/", .routerRefresh, .setIsLoadingEff false]) := by
  simp [handleSetActiveProfile, hq, ht]

/-- C9, witness: activating scenario profile 2 with token "tok123". -/
theorem setactive_success_effects_witness :
    ("tok123" ≠ "") ∧
    (baseState.profiles.find? (fun p => p.id == (2 : Int)) = some profileB) ∧
    handleSetActiveProfile baseState 2 (.success (some "tok123")) =
      ({ baseState with activeProfileId := some 2, isLoading := false },
       [.setIsLoadingEff true, .httpPost "/api/profiles/setActive",
        .sessionSet "tok123", .storageSet "activeProfile" profileB,
        .toastSuccess "Active profile updated successfully",
        .routerPush "/", .routerRefresh, .setIsLoadingEff false]) :=
  ⟨by decide, by decide,
   setactive_success_effects baseState 2 "tok123" profileB (by decide) (by decide)⟩

/-- C10: on a successful activation the object cached under `activeProfile`
is exactly the element of the pre-activation in-memory list (so its
`isActive` field still holds the stale pre-switch value), it is the only
storage write; and when the requested id is not in the list no storage write
occurs at all while the success toast and the navigation to `/` still
happen. -/
theorem stale_active_profile_cache :
    (∀ (s : PageState) (pid : Int) (tok : Option String) (q : Profile),
        s.profiles.find? (fun p => p.id == pid) = some q →
        Effect.storageSet "activeProfile" q ∈
          (handleSetActiveProfile s pid (.success tok)).2 ∧
        q ∈ s.profiles ∧
        (∀ (k : String) (p' : Profile),
          Effect.storageSet k p' ∈ (handleSetActiveProfile s pid (.success tok)).2 →
          k = "activeProfile" ∧ p' = q)) ∧
    (∀ (s : PageState) (pid : Int) (tok : Option String),
        s.profiles.find? (fun p => p.id == pid) = none →
        (∀ (k : String) (p' : Profile),
          Effect.storageSet k p' ∉ (handleSetActiveProfile s pid (.success tok)).2) ∧
        Effect.toastSuccess "Active profile updated successfully" ∈
          (handleSetActiveProfile s pid (.success tok)).2 ∧
        Effect.routerPush "/" ∈ (handleSetActiveProfile s pid (.success tok)).2) := by
  constructor
  · intro s pid tok q hq
    refine ⟨?_, List.mem_of_find?_eq_some hq, ?_⟩
    · rcases tok with _ | t
      · simp [handleSetActiveProfile, hq]
      · by_cases ht : t = "" <;> simp [handleSetActiveProfile, hq, ht]
    · intro k p' hm
      rcases tok with _ | t
      · simp [handleSetActiveProfile, hq] at hm
        exact hm
      · by_cases ht : t = "" <;> simp [handleSetActiveProfile, hq, ht] at hm <;> exact hm
  · intro s pid tok hn
    refine ⟨?_, ?_, ?_⟩
    · intro k p'
      rcases tok with _ | t
      · simp [handleSetActiveProfile, hn]
      · by_cases ht : t = "" <;> simp [handleSetActiveProfile, hn, ht]
    · rcases tok with _ | t
      · simp [handleSetActiveProfile, hn]
      · by_cases ht : t = "" <;> simp [handleSetActiveProfile, hn, ht]
    · rcases tok with _ | t
      · simp [handleSetActiveProfile, hn]
      · by_cases ht : t = "" <;> simp [handleSetActiveProfile, hn, ht]

/-- C10, witness: activating scenario profile 2 caches the stale object
(whose `isActive` is still false), and activating the absent id 99 writes no
cache entry while still toasting success. -/
theorem stale_active_profile_cache_witness :
    (baseState.profiles.find? (fun p => p.id == (2 : Int)) = some profileB ∧
     profileB.isActive = false ∧
     Effect.storageSet "activeProfile" profileB ∈
       (handleSetActiveProfile baseState 2 (.success none)).2) ∧
    (baseState.profiles.find? (fun p => p.id == (99 : Int)) = none ∧
     (∀ (k : String) (p' : Profile),
       Effect.storageSet k p' ∉ (handleSetActiveProfile baseState 99 (.success none)).2) ∧
     Effect.toastSuccess "Active profile updated successfully" ∈
       (handleSetActiveProfile baseState 99 (.success none)).2) :=
  ⟨⟨by decide, by decide,
    (stale_active_profile_cache.1 baseState 2 none profileB (by decide)).1⟩,
   ⟨by decide,
    (stale_active_profile_cache.2 baseState 99 none (by decide)).1,
    (stale_active_profile_cache.2 baseState 99 none (by decide)).2.1⟩⟩

end XtreamPlayer
